import Mathlib

/-!
Verification development for the COA (Certificate of Analysis) generator
`streamlit_app.py`.  The Python source is shallowly embedded: pure string
helpers are modelled over `List Char` with structural recursion, machine
floats are modelled by exact decimal significand/exponent pairs (`Dec`) and
exact rationals (`ℚ`), page geometry is exact rational arithmetic in points,
and the two-pass `NumberedCanvas` rendering is an explicit state machine.
Library calls (pandas parsing, ReportLab serialization) are modelled at the
call boundary; each such model carries a doc comment saying exactly what
library behavior it reproduces.
-/

/-! ## Python string primitives -/

/-- Model of Python `str.strip()` on a character list: drop whitespace from
both ends. -/
def pyStripList (cs : List Char) : List Char :=
  ((cs.dropWhile Char.isWhitespace).reverse.dropWhile Char.isWhitespace).reverse

/-- Model of Python `str.strip()`. -/
def pyStrip (s : String) : String := String.mk (pyStripList s.data)

/-- Model of Python `str.lower()` (ASCII case folding, which covers every
label and key used by the program). -/
def pyLower (s : String) : String := String.mk (s.data.map Char.toLower)

/-- Model of Python `s.replace(",", "")`: remove every comma. -/
def dropCommas (s : String) : String := String.mk (s.data.filter (fun c => c ≠ ','))

/-- Model of the Python substring test `needle in hay`. -/
def containsSub (hay needle : String) : Bool :=
  (List.range (hay.data.length + 1)).any (fun i => needle.data.isPrefixOf (hay.data.drop i))

def allDigits (cs : List Char) : Bool := cs.all Char.isDigit

def digitsVal (cs : List Char) : ℕ := cs.foldl (fun a c => a * 10 + (c.toNat - 48)) 0

def parseNatDigits (cs : List Char) : Option ℕ :=
  if cs ≠ [] ∧ allDigits cs then some (digitsVal cs) else none

/-! ## Numeric model: exact decimals in place of Python floats

A parsed numeric string is kept as an exact decimal `(-1)^neg * mant * 10^exp`
rather than a binary double.  This idealization is exact on every literal the
program's formatting threshold logic distinguishes (doubles round only beyond
17 significant digits, far past the one-decimal output precision). -/

structure Dec where
  neg : Bool
  mant : ℕ
  exp : ℤ
deriving DecidableEq, Repr

/-- Exact rational value of a parsed decimal. -/
def Dec.toRat (d : Dec) : ℚ :=
  let a : ℚ := (d.mant : ℚ) *
    (if 0 ≤ d.exp then (10 : ℚ) ^ d.exp.toNat else 1 / (10 : ℚ) ^ (-d.exp).toNat)
  if d.neg then -a else a

def splitSign : List Char → Bool × List Char
  | '+' :: cs => (false, cs)
  | '-' :: cs => (true, cs)
  | cs => (false, cs)

def splitFirstE (cs : List Char) : List Char × Option (List Char) :=
  match cs.findIdx? (fun c => c == 'e' || c == 'E') with
  | none => (cs, none)
  | some i => (cs.take i, some (cs.drop (i + 1)))

/-- Mantissa digits: `ddd`, `ddd.ddd`, `ddd.` or `.ddd`.  Returns the digit
value together with the number of fractional digits. -/
def parseMant (cs : List Char) : Option (ℕ × ℕ) :=
  match cs.splitOn '.' with
  | [a] => if a ≠ [] ∧ allDigits a then some (digitsVal a, 0) else none
  | [a, b] =>
      if (a ≠ [] ∨ b ≠ []) ∧ allDigits a ∧ allDigits b then
        some (digitsVal a * 10 ^ b.length + digitsVal b, b.length)
      else none
  | _ => none

def parseExp (cs : List Char) : Option ℤ :=
  let p := splitSign cs
  match parseNatDigits p.2 with
  | some v => some (if p.1 then -(v : ℤ) else (v : ℤ))
  | none => none

/-- Model of Python `float(s)` on finite decimal literals: optional sign,
digits with an optional decimal point, optional exponent part.  (Python's
`float` additionally accepts surrounding whitespace — the program always
strips first — and the special spellings `inf`/`nan` and digit underscores,
which the threshold logic never receives from the COA form.) -/
def pyFloat (s : String) : Option Dec :=
  let p := splitSign s.data
  let q := splitFirstE p.2
  match parseMant q.1 with
  | none => none
  | some mf =>
    match q.2 with
    | none => some ⟨p.1, mf.1, -(mf.2 : ℤ)⟩
    | some ecs =>
      match parseExp ecs with
      | none => none
      | some ev => some ⟨p.1, mf.1, ev - (mf.2 : ℤ)⟩

/-! ## Scientific-notation formatting (Python `f"{f:.1E}"`) -/

/-- Number of decimal digits of a natural number (1 for 0). -/
def digits10 (n : ℕ) : ℕ := (Nat.toDigits 10 n).length

/-- Zero-pad a decimal numeral to width `w` (model of `%02d`-style padding
and of C `%E`'s two-digit exponent field). -/
def padNum (w n : ℕ) : String :=
  let s := Nat.repr n
  if s.length < w then String.mk (List.replicate (w - s.length) '0') ++ s else s

/-- Model of Python `f"{f:.1E}"` on an exact decimal: one digit before and one
after the point, round-half-even (IEEE/CPython correct rounding), exponent
sign plus at least two exponent digits, e.g. `1.5E+03`. -/
def fmtSci1 (d : Dec) : String :=
  if d.mant = 0 then (if d.neg then "-0.0E+00" else "0.0E+00")
  else
    let k := digits10 d.mant
    let e0 : ℤ := (k : ℤ) - 1 + d.exp
    let n0 : ℕ :=
      if k ≤ 2 then d.mant * 10 ^ (2 - k)
      else
        let p := 10 ^ (k - 2)
        let q := d.mant / p
        let r := d.mant % p
        if r > p / 2 then q + 1 else if r < p / 2 then q else q + q % 2
    let n := if n0 = 100 then 10 else n0
    let e := if n0 = 100 then e0 + 1 else e0
    (if d.neg then "-" else "") ++ Nat.repr (n / 10) ++ "." ++ Nat.repr (n % 10) ++
      "E" ++ (if 0 ≤ e then "+" else "-") ++ padNum 2 e.natAbs

/-- Embedding of `_sci_if_needed` (streamlit_app.py:205-219): strip, return
the stripped string when empty; parse the comma-stripped string as a float;
on success and magnitude at least 1000 return one-decimal scientific
notation, otherwise the stripped string.  (The `val is None` guard is dropped:
every call site passes a string.) -/
def _sci_if_needed (val : String) : String :=
  if pyStrip val = "" then pyStrip val
  else
    match pyFloat (dropCommas (pyStrip val)) with
    | some d => if (1000 : ℚ) ≤ |d.toRat| then fmtSci1 d else pyStrip val
    | none => pyStrip val

/-! ## Date normalization -/

structure PDate where
  year : ℕ
  month : ℕ
  day : ℕ
deriving DecidableEq, Repr

def isLeapYear (y : ℕ) : Bool := (y % 4 == 0 && y % 100 != 0) || (y % 400 == 0)

def daysInMonth (y m : ℕ) : ℕ :=
  if m = 2 then (if isLeapYear y then 29 else 28)
  else if m = 4 ∨ m = 6 ∨ m = 9 ∨ m = 11 then 30
  else 31

def validDate (y m d : ℕ) : Bool :=
  1 ≤ m && m ≤ 12 && 1 ≤ d && d ≤ daysInMonth y m

/-- Canonical `YYYY-MM-DD` rendering (Python `strftime("%Y-%m-%d")`). -/
def isoDate (d : PDate) : String :=
  padNum 4 d.year ++ "-" ++ padNum 2 d.month ++ "-" ++ padNum 2 d.day

def tryIsoYmd (cs : List Char) : Option PDate :=
  match cs.splitOn '-' with
  | [y, m, d] =>
      if y.length = 4 ∧ allDigits y ∧ m ≠ [] ∧ allDigits m ∧ d ≠ [] ∧ allDigits d
          ∧ validDate (digitsVal y) (digitsVal m) (digitsVal d) then
        some ⟨digitsVal y, digitsVal m, digitsVal d⟩
      else none
  | _ => none

def tryUsMdy (cs : List Char) : Option PDate :=
  match cs.splitOn '/' with
  | [m, d, y] =>
      if y.length = 4 ∧ allDigits y ∧ m ≠ [] ∧ allDigits m ∧ d ≠ [] ∧ allDigits d
          ∧ validDate (digitsVal y) (digitsVal m) (digitsVal d) then
        some ⟨digitsVal y, digitsVal m, digitsVal d⟩
      else none
  | _ => none

def tryBareYear (cs : List Char) : Option PDate :=
  if cs.length = 4 ∧ allDigits cs then some ⟨digitsVal cs, 1, 1⟩ else none

/-- Numeric key `YYYYMMDD` of a date, for the bounds comparison. -/
def dateKey (d : PDate) : ℕ := d.year * 10000 + d.month * 100 + d.day

/-- Nanosecond-`Timestamp` representability of a midnight date: pandas
coerces anything outside `Timestamp.min = 1677-09-21 00:12:43...` and
`Timestamp.max = 2262-04-11 23:47:16...` to `NaT`, so the representable
midnight dates are 1677-09-22 through 2262-04-11. -/
def inTsBounds (d : PDate) : Bool :=
  16770922 ≤ dateKey d && dateKey d ≤ 22620411

/-- Model of `pandas.to_datetime(s, errors="coerce")` on scalar strings,
restricted to the common representations this program exercises:
`YYYY-MM-DD`, US `MM/DD/YYYY`, and bare four-digit years (which pandas reads
as January 1 of that year).  Surrounding whitespace is tolerated; invalid
calendar dates, dates outside the nanosecond-`Timestamp` bounds (see
`inTsBounds`), and everything else coerce to `NaT` (`none`). -/
def pdToDatetime (s : String) : Option PDate :=
  let cs := pyStripList s.data
  let r :=
    match tryIsoYmd cs with
    | some d => some d
    | none =>
      match tryUsMdy cs with
      | some d => some d
      | none => tryBareYear cs
  match r with
  | some d => if inTsBounds d then some d else none
  | none => none

/-- Embedding of `_normalize_date_str` (streamlit_app.py:187-203): empty
strings pass through; a string that pandas parses as a date is rendered
`YYYY-MM-DD`; anything else is returned unchanged. -/
def _normalize_date_str (s : String) : String :=
  if s = "" then s
  else
    match pdToDatetime s with
    | some d => isoDate d
    | none => s

/-! ## Column-width fitting -/

/-- Embedding of `_fit_col_widths` (streamlit_app.py:68-79), in exact
arithmetic.  (The Python `try` around `float(sum(widths))` cannot fail on
numeric lists and is not modelled.) -/
def _fit_col_widths (widths : List ℚ) (maxWidth : ℚ) : List ℚ :=
  let total := widths.sum
  if total ≤ 0 then widths
  else if total ≤ maxWidth then widths
  else widths.map (fun w => w * (maxWidth / total))

/-! ## Page geometry constants (points, exact) -/

def PAGE_W : ℚ := 612
def PAGE_H : ℚ := 792
def MARGIN : ℚ := 9
def VER_FONT_SIZE : ℚ := 6
def PAGE_FONT_SIZE : ℚ := 6
def DISC_FONT_SIZE : ℚ := 6
def FOOTER_RIGHT_X : ℚ := PAGE_W - 45
def VER_Y_ABS : ℚ := 162 / 5
def PAGE_Y_ABS : ℚ := 576 / 25
def DISC_X_ABS : ℚ := 9
def DISC_Y_ABS : ℚ := 324 / 5
def DISC_WIDTH : ℚ := PAGE_W - 18
def content_width : ℚ := PAGE_W - 2 * MARGIN
def docWidth : ℚ := PAGE_W - MARGIN - MARGIN

/-- Embedding of the local `scaled_h` in `generate_coa_pdf_vector`
(streamlit_app.py:238-243): an absent image reserves no height, a present one
of natural size `(iw, ih)` is scaled down (never up) to fit `maxW`. -/
def scaled_h : Option (ℚ × ℚ) → ℚ → ℚ
  | none, _ => 0
  | some wh, maxW => wh.2 * min (maxW / wh.1) 1

/-- Top reserved band (streamlit_app.py:250): margin plus header height plus
6pt of breathing room when a header exists (Python float truthiness). -/
def top_margin (header_h : ℚ) : ℚ :=
  MARGIN + (header_h + (if header_h = 0 then 0 else 6))

/-- Bottom reserved band (streamlit_app.py:251): margin plus footer height
plus 36pt for the disclaimer and page/version lines. -/
def bottom_margin (footer_h : ℚ) : ℚ := MARGIN + (footer_h + 36)

/-- Content-frame height: page height minus the two computed margins. -/
def docHeight (top bot : ℚ) : ℚ := PAGE_H - top - bot

/-! ## Asset loading

The filesystem at the four fixed asset paths is a value: `none` means the
file is missing or unreadable (every exception path in the source), `some`
carries the decoded content (image natural size, or file text). -/

structure AssetState where
  header : Option (ℚ × ℚ)
  footer : Option (ℚ × ℚ)
  disclaimer : Option String
  version : Option String

def DEFAULT_DISCLAIMER : String :=
  "DISCLAIMER: Materials, products, and services are provided under our standard terms and conditions."

/-- Embedding of `_safe_read_text` (streamlit_app.py:168-172): the stripped
file text on success, the stripped default on any failure. -/
def _safe_read_text (contents : Option String) (dflt : String) : String :=
  match contents with
  | some t => pyStrip t
  | none => pyStrip dflt

/-- Embedding of `_image_reader_or_none` (streamlit_app.py:176-182): the
image when the path holds a readable file, `none` otherwise. -/
def _image_reader_or_none (img : Option (ℚ × ℚ)) : Option (ℚ × ℚ) := img

def load_disclaimer (a : AssetState) : String :=
  _safe_read_text a.disclaimer DEFAULT_DISCLAIMER

def load_version (a : AssetState) : String := _safe_read_text a.version "1.0"

/-! ## Flowing content: sections and tables -/

structure TestRow where
  property : String
  test_method : String
  unit : String
  lower_limit : String
  upper_limit : String
  result : String

/-- A field map queried with `info.get(key, "")`. -/
abbrev FieldMap := String → String

def CI_COL_WIDTHS : List ℚ := [117, 180, 117, 180]
def PI_COL_WIDTHS : List ℚ := [117, 180, 117, 180]
def TP_COL_WIDTHS : List ℚ := [174, 120, 60, 80, 80, 80]

/-- The four customer-information rows (streamlit_app.py:331-336). -/
def customer_info_rows (info : FieldMap) : List (String × String × String × String) :=
  [("Customer Name", info "customerName", "Account Number", info "accountNumber"),
   ("Customer PO Number", info "poNumber", "Supplier Quote Number", info "quoteNumber"),
   ("Order Date", info "orderDate", "Quantity Shipped", info "quantityShipped"),
   ("Shipped Date", info "shippedDate", "Shipped To Location", info "shippedLocation")]

/-- Left-column date test (streamlit_app.py:340):
`"order" in l1.lower() or "shipped" in l1.lower()`. -/
def ci_date1 (l1 : String) : Bool :=
  containsSub (pyLower l1) "order" || containsSub (pyLower l1) "shipped"

/-- Right-column date test (streamlit_app.py:341):
`("quote" in l2.lower()) is False and ("shipped" in l2.lower())`. -/
def ci_date2 (l2 : String) : Bool :=
  (!containsSub (pyLower l2) "quote") && containsSub (pyLower l2) "shipped"

/-- Customer-information cell rows, `(text, bold)` per cell
(streamlit_app.py:337-347). -/
def ci_cells (info : FieldMap) : List (List (String × Bool)) :=
  (customer_info_rows info).map (fun r =>
    match r with
    | (l1, v1, l2, v2) =>
      [(l1, true),
       (if ci_date1 l1 then _normalize_date_str v1 else v1, false),
       (l2, true),
       (if ci_date2 l2 then _normalize_date_str v2 else v2, false)])

/-- The four product-information rows (streamlit_app.py:364-369). -/
def product_info_rows (info : FieldMap) : List (String × String × String × String) :=
  [("Item Name", info "itemName", "Item SKU", info "itemSKU"),
   ("Lot Number", info "lotNumber", "Manufacturing Location", info "manufacturingLocation"),
   ("Manufacturing Date", info "manufacturingDate", "Test Date", info "testDate"),
   ("Expiration Date", info "expirationDate", "Certificate Print Date", info "printDate")]

/-- Product-information date test (streamlit_app.py:373-374): the label
contains one of four keywords. -/
def pi_date_label (l : String) : Bool :=
  ["manufacturing date", "expiration", "test date", "print date"].any
    (fun k => containsSub (pyLower l) k)

/-- Product-information cell rows (streamlit_app.py:370-382). -/
def pi_cells (info : FieldMap) : List (List (String × Bool)) :=
  (product_info_rows info).map (fun r =>
    match r with
    | (l1, v1, l2, v2) =>
      [(l1, true),
       (if pi_date_label l1 then _normalize_date_str v1 else v1, false),
       (l2, true),
       (if pi_date_label l2 then _normalize_date_str v2 else v2, false)])

/-- Tested-properties table data: fixed bold header row plus one row per
test, magnitude formatting on the three numeric columns
(streamlit_app.py:400-416). -/
def tp_data (tests : List TestRow) : List (List (String × Bool)) :=
  [("PROPERTY", true), ("TEST METHOD", true), ("UNIT", true),
   ("LOWER LIMIT", true), ("UPPER LIMIT", true), ("RESULT", true)] ::
  tests.map (fun t =>
    [(t.property, false), (t.test_method, false), (t.unit, false),
     (_sci_if_needed t.lower_limit, false), (_sci_if_needed t.upper_limit, false),
     (_sci_if_needed t.result, false)])

/-- Flowing-content blocks of the story. -/
inductive Block where
  | sectionBar (label : String)
  | table (cells : List (List (String × Bool))) (colWidths : List ℚ)
  | spacer (w h : ℚ)

/-- The story built by `generate_coa_pdf_vector` (streamlit_app.py:326-430):
three section bars, three fitted tables, spacers between. -/
def buildStory (info : FieldMap) (tests : List TestRow) : List Block :=
  [Block.sectionBar "CUSTOMER INFORMATION",
   Block.table (ci_cells info) (_fit_col_widths CI_COL_WIDTHS docWidth),
   Block.spacer 1 6,
   Block.sectionBar "PRODUCT INFORMATION",
   Block.table (pi_cells info) (_fit_col_widths PI_COL_WIDTHS docWidth),
   Block.spacer 1 6,
   Block.sectionBar "TESTED PROPERTIES",
   Block.table (tp_data tests) (_fit_col_widths TP_COL_WIDTHS docWidth),
   Block.spacer 1 6]

/-! ## The NumberedCanvas two-pass state machine -/

/-- Drawing operations issued during the Collecting phase: decoration images,
absolutely positioned paragraphs, and flowed story blocks. -/
inductive ContentOp where
  | image (x y w h : ℚ)
  | text (x y : ℚ) (s : String)
  | flowed (b : Block)

/-- Every operation a page can carry.  `footerRightString` models
`drawRightString` and is produced only by `_draw_footer_numbers`; everything
the flow engine or the page-decoration callback draws is a `content` op. -/
inductive DrawOp where
  | content (c : ContentOp)
  | footerRightString (x y size : ℚ) (text : String)

/-- One snapshot stored by the overridden `showPage`: the page's ops so far
together with ReportLab's `_pageNumber` at capture time. -/
structure SavedPage where
  ops : List DrawOp
  pageNumber : ℕ

/-- State of the `NumberedCanvas` (streamlit_app.py:133-165).  `pageNumber`
is ReportLab's `_pageNumber`, initialized to 1 and advanced by `_startPage`;
`saved` is `_saved_page_states`; `emitted` are the pages finalized by the
base-class `showPage` during `save()`. -/
structure NumberedCanvas where
  version_text : String
  footer_h : ℚ
  pageNumber : ℕ
  ops : List DrawOp
  saved : List SavedPage
  emitted : List (List DrawOp)

def initCanvas (v : String) (fh : ℚ) : NumberedCanvas := ⟨v, fh, 1, [], [], []⟩

/-- Drawing one content op onto the current page. -/
def NumberedCanvas.drawContent (c : NumberedCanvas) (op : ContentOp) : NumberedCanvas :=
  { c with ops := c.ops ++ [DrawOp.content op] }

/-- Embedding of the overridden `showPage` (streamlit_app.py:141-145): store
the page state, do not emit; `_startPage` clears the page and advances
`_pageNumber`. -/
def NumberedCanvas.showPage (c : NumberedCanvas) : NumberedCanvas :=
  { c with saved := c.saved ++ [⟨c.ops, c.pageNumber⟩],
           ops := [],
           pageNumber := c.pageNumber + 1 }

/-- The version line drawn by `_draw_footer_numbers` (streamlit_app.py:162). -/
def versionOp (v : String) : DrawOp :=
  DrawOp.footerRightString FOOTER_RIGHT_X VER_Y_ABS VER_FONT_SIZE v

/-- The page line drawn by `_draw_footer_numbers` (streamlit_app.py:157,165). -/
def pageNumOp (k total : ℕ) : DrawOp :=
  DrawOp.footerRightString FOOTER_RIGHT_X PAGE_Y_ABS PAGE_FONT_SIZE
    ("Page " ++ Nat.repr k ++ " of " ++ Nat.repr total)

/-- Embedding of `_draw_footer_numbers` (streamlit_app.py:155-165). -/
def _draw_footer_numbers (version_text : String) (page_num total : ℕ) : List DrawOp :=
  [versionOp version_text, pageNumOp page_num total]

/-- Embedding of the overridden `save` (streamlit_app.py:147-153): with the
total now known, restore each stored state in order, draw the footer numbers
onto it, and emit it. -/
def NumberedCanvas.save (c : NumberedCanvas) : NumberedCanvas :=
  let total := c.saved.length
  { c with emitted :=
      c.saved.map (fun st => st.ops ++ _draw_footer_numbers c.version_text st.pageNumber total) }

/-- One Collecting-phase page: draw its content ops, then `showPage`. -/
def drawPage (c : NumberedCanvas) (pg : List ContentOp) : NumberedCanvas :=
  NumberedCanvas.showPage (pg.foldl NumberedCanvas.drawContent c)

/-- The Collecting phase over a document whose flowing content spans the
given pages. -/
def collectPhase (v : String) (fh : ℚ) (pages : List (List ContentOp)) : NumberedCanvas :=
  pages.foldl drawPage (initCanvas v fh)

/-- Full two-pass run: Collecting then Finalizing (`save`). -/
def runPages (v : String) (fh : ℚ) (pages : List (List ContentOp)) : NumberedCanvas :=
  NumberedCanvas.save (collectPhase v fh pages)

/-- Recognizer for footer text drawn by `_draw_footer_numbers` (version and
page-number right-strings). -/
def isFooterTextOp : DrawOp → Bool
  | DrawOp.footerRightString _ _ _ _ => true
  | DrawOp.content _ => false

/-- Saved states produced by collecting `pages` from `_pageNumber = start`:
page `i` (0-based) is stored with page number `start + i`. -/
def pagesToSaved (start : ℕ) : List (List ContentOp) → List SavedPage
  | [] => []
  | pg :: rest => ⟨pg.map DrawOp.content, start⟩ :: pagesToSaved (start + 1) rest

/-! ## Page decoration and document serialization -/

/-- Embedding of the `on_page` decoration callback (streamlit_app.py:433-471):
header image at the top inside the margin, footer image at the bottom, and
the justified disclaimer paragraph at its absolute position. -/
def on_page_ops (a : AssetState) (disclaimer : String) : List ContentOp :=
  (match a.header with
   | none => []
   | some wh =>
     [ContentOp.image MARGIN (PAGE_H - MARGIN - wh.2 * min (content_width / wh.1) 1)
        (wh.1 * min (content_width / wh.1) 1) (wh.2 * min (content_width / wh.1) 1)]) ++
  (match a.footer with
   | none => []
   | some wh =>
     [ContentOp.image MARGIN MARGIN
        (wh.1 * min (content_width / wh.1) 1) (wh.2 * min (content_width / wh.1) 1)]) ++
  [ContentOp.text DISC_X_ABS DISC_Y_ABS (pyStrip disclaimer)]

def strBytes (s : String) : List ℕ := s.data.map Char.toNat

def ratTok (q : ℚ) : String := Int.repr q.num ++ ":" ++ Nat.repr q.den

def cellTok (c : String × Bool) : String := (if c.2 then "B." else "P.") ++ c.1 ++ ";"

def cellsTok (cells : List (List (String × Bool))) : String :=
  String.join (cells.map (fun row => "[" ++ String.join (row.map cellTok) ++ "]"))

def widthsTok (ws : List ℚ) : String := String.join (ws.map (fun w => ratTok w ++ ","))

def blockTok : Block → String
  | Block.sectionBar l => "BAR(" ++ l ++ ")"
  | Block.table cells ws => "TBL(" ++ cellsTok cells ++ "|" ++ widthsTok ws ++ ")"
  | Block.spacer w h => "SPC(" ++ ratTok w ++ "," ++ ratTok h ++ ")"

def contentOpTok : ContentOp → String
  | ContentOp.image x y w h =>
      "IMG(" ++ ratTok x ++ "," ++ ratTok y ++ "," ++ ratTok w ++ "," ++ ratTok h ++ ")"
  | ContentOp.text x y s => "TXT(" ++ ratTok x ++ "," ++ ratTok y ++ "," ++ s ++ ")"
  | ContentOp.flowed b => "FLW(" ++ blockTok b ++ ")"

def drawOpTok : DrawOp → String
  | DrawOp.content c => contentOpTok c
  | DrawOp.footerRightString x y sz t =>
      "RS(" ++ ratTok x ++ "," ++ ratTok y ++ "," ++ ratTok sz ++ "," ++ t ++ ")"

def pageTok (ops : List DrawOp) : String :=
  "PAGE(" ++ String.join (ops.map drawOpTok) ++ ")"

/-- Byte stream of the finalized pages. -/
def pdfBody (pages : List (List DrawOp)) : List ℕ :=
  strBytes "%PDF-1.4 " ++ (pages.map (fun p => strBytes (pageTok p))).flatten

/-- Trailer written at `save` time.  Models the fact that ReportLab's
`PDFDocument`, with `rl_config.invariant` left at its default of 0 (the
program never sets it), stamps the file with a `/CreationDate` and a document
ID both derived from the wall clock read during `save`. -/
def trailerStr (clock : ℕ) : String :=
  "/CreationDate D:" ++ Nat.repr clock ++ " /ID " ++ Nat.repr clock ++ " %%EOF"

/-- Deterministic byte serialization of the emitted pages followed by the
clock-stamped trailer. -/
def serializePDF (pages : List (List DrawOp)) (clock : ℕ) : List ℕ :=
  pdfBody pages ++ strBytes (trailerStr clock)

/-- Embedding of `generate_coa_pdf_vector` (streamlit_app.py:222-492).
`flow` is the platypus layout engine abstracted as a deterministic function
from the story and the frame size to the per-page flowed content; `clock` is
the ambient wall-clock reading at `save` time (see `trailerStr`). -/
def generate_coa_pdf_vector (flow : List Block → ℚ → ℚ → List (List ContentOp))
    (info : FieldMap) (tests : List TestRow) (a : AssetState) (clock : ℕ) : List ℕ :=
  let disclaimer_text := load_disclaimer a
  let version_text := load_version a
  let header_h := scaled_h a.header content_width
  let footer_h := scaled_h a.footer content_width
  let tm := top_margin header_h
  let bm := bottom_margin footer_h
  let story := buildStory info tests
  let contentPages := flow story docWidth (docHeight tm bm)
  let pages := contentPages.map (fun pg => on_page_ops a disclaimer_text ++ pg)
  serializePDF (runPages version_text footer_h pages).emitted clock

/-! ## Spreadsheet import -/

/-- A cell of the pandas DataFrame produced by `read_csv`/`read_excel` with
`header=None`: missing/blank cells are `NaN`, text cells are strings, native
spreadsheet date cells are Timestamps.  (Purely numeric cells, which pandas
would read as numbers, do not occur in the two-column field/value files this
importer is specified over.) -/
inductive Cell where
  | na
  | str (s : String)
  | ts (d : PDate)
deriving DecidableEq, Repr

/-- Python `str(...)` of a midnight Timestamp: `YYYY-MM-DD 00:00:00`. -/
def tsDefaultStr (d : PDate) : String := isoDate d ++ " 00:00:00"

/-- Python `str(cell)`. -/
def pyStrCell : Cell → String
  | Cell.na => "nan"
  | Cell.str s => s
  | Cell.ts d => tsDefaultStr d

/-- The value written for a cell: Timestamps are first converted with
`strftime("%Y-%m-%d")` (streamlit_app.py:108-109), everything else goes
through `str(...)`. -/
def valueStr : Cell → String
  | Cell.ts d => isoDate d
  | c => pyStrCell c

/-- Header-row test (streamlit_app.py:101):
`isinstance(field, str) and field.strip().lower() == "field"`. -/
def isHeaderField : Cell → Bool
  | Cell.str s => pyLower (pyStrip s) == "field"
  | _ => false

/-- Python dict insertion: overwrite in place, else append. -/
def dictInsert (m : List (String × String)) (k v : String) : List (String × String) :=
  if m.any (fun p => p.1 == k) then m.map (fun p => if p.1 == k then (k, v) else p)
  else m ++ [(k, v)]

/-- Embedding of one iteration of the row loop in `parse_uploaded_file`
(streamlit_app.py:97-110): skip empty rows, header rows, NaN keys and NaN
values; store `str(field).strip() -> str(value).strip()` with Timestamp
values pre-rendered `YYYY-MM-DD`. -/
def rowStep (data : List (String × String)) (row : List Cell) : List (String × String) :=
  match row with
  | [] => data
  | field :: rest =>
    if isHeaderField field then data
    else if field = Cell.na then data
    else
      let value := rest.headD (Cell.str "")
      if value = Cell.na then data
      else dictInsert data (pyStrip (pyStrCell field)) (pyStrip (valueStr value))

/-- Embedding of `parse_uploaded_file` (streamlit_app.py:83-113) on an
already-read DataFrame. -/
def parse_uploaded_file (df : List (List Cell)) : List (String × String) :=
  df.foldl rowStep []

/-! ## Concrete inputs used by counterexamples and witnesses -/

/-- FieldMap whose only populated field is a numeric Quantity Shipped. -/
def c6Info : FieldMap := fun k => if k = "quantityShipped" then "2000" else ""

/-- The import scenario of the spec: a header row, one populated row, one
blank-value row. -/
def c9File : List (List Cell) :=
  [[Cell.str "field", Cell.str "value"],
   [Cell.str "customerName", Cell.str "Acme Corp"],
   [Cell.str "accountNumber", Cell.na]]


/-! ## Shared helper lemmas -/

theorem list_sum_map_mul (l : List ℚ) (c : ℚ) :
    (l.map (fun w => w * c)).sum = l.sum * c := by
  induction l with
  | nil => simp
  | cons a t ih => simp [ih, add_mul]

/-! ## C3: column-width fitting -/

/-- C3 counterexample: the claim quantifies over every width list and every
max_total, but `_fit_col_widths` returns the list unchanged whenever the
widths sum to 0 or less, even when that sum exceeds max_total — at
`W = [0], M = -1` the sum is not rescaled to `M`; and at `W = [1,1], M = 0`
the scaled widths are all 0 and the ratio `W'[0]/W'[1]` degenerates instead
of matching `W[0]/W[1] = 1`. -/
theorem C3_fit_col_widths_counterexample :
    ((-1 : ℚ) < List.sum [(0 : ℚ)] ∧ _fit_col_widths [(0 : ℚ)] (-1) = [0] ∧
      List.sum (_fit_col_widths [(0 : ℚ)] (-1)) ≠ -1) ∧
    ((0 : ℚ) < List.sum [(1 : ℚ), 1] ∧ _fit_col_widths [(1 : ℚ), 1] 0 = [0, 0] ∧
      List.getD (_fit_col_widths [(1 : ℚ), 1] 0) 0 0 /
          List.getD (_fit_col_widths [(1 : ℚ), 1] 0) 1 0 ≠
        List.getD [(1 : ℚ), 1] 0 0 / List.getD [(1 : ℚ), 1] 1 0) := by
  norm_num [_fit_col_widths]

/-- C3 (amended): `_fit_col_widths W M` returns `W` unchanged when
`sum(W) ≤ M` and also when `sum(W) ≤ 0`; when `0 < sum(W)` and `M < sum(W)`
the result sums exactly to `M`, and when additionally `M ≠ 0` all pairwise
ratios are preserved. -/
theorem C3_fit_col_widths_amended (W : List ℚ) (M : ℚ) :
    (W.sum ≤ M → _fit_col_widths W M = W) ∧
    (W.sum ≤ 0 → _fit_col_widths W M = W) ∧
    (0 < W.sum → M < W.sum → (_fit_col_widths W M).sum = M) ∧
    (0 < W.sum → M < W.sum → M ≠ 0 →
      ∀ (i j : ℕ) (wi wj : ℚ), W[i]? = some wi → W[j]? = some wj →
        ∃ wi' wj' : ℚ, (_fit_col_widths W M)[i]? = some wi' ∧
          (_fit_col_widths W M)[j]? = some wj' ∧ wi' / wj' = wi / wj) := by
  refine ⟨?_, ?_, ?_, ?_⟩
  · intro h
    by_cases h0 : W.sum ≤ 0
    · simp [_fit_col_widths, h0]
    · simp [_fit_col_widths, h0, h]
  · intro h
    simp [_fit_col_widths, h]
  · intro h1 h2
    have hne : W.sum ≠ 0 := ne_of_gt h1
    simp only [_fit_col_widths, if_neg (not_le.mpr h1), if_neg (not_le.mpr h2)]
    rw [list_sum_map_mul, mul_comm, div_mul_cancel₀ _ hne]
  · intro h1 h2 hM i j wi wj hi hj
    have hne : W.sum ≠ 0 := ne_of_gt h1
    have hc : M / W.sum ≠ 0 := div_ne_zero hM hne
    refine ⟨wi * (M / W.sum), wj * (M / W.sum), ?_, ?_, ?_⟩
    · simp only [_fit_col_widths, if_neg (not_le.mpr h1), if_neg (not_le.mpr h2)]
      rw [List.getElem?_map, hi]; rfl
    · simp only [_fit_col_widths, if_neg (not_le.mpr h1), if_neg (not_le.mpr h2)]
      rw [List.getElem?_map, hj]; rfl
    · exact mul_div_mul_right wi wj hc

/-- C3 witness: a concrete over-wide list is rescaled to the exact target
sum, via the amended theorem. -/
theorem C3_fit_col_widths_witness :
    _fit_col_widths [(600 : ℚ), 600] 594 = [297, 297] ∧
      (_fit_col_widths [(600 : ℚ), 600] 594).sum = 594 := by
  constructor
  · norm_num [_fit_col_widths]
  · exact (C3_fit_col_widths_amended [600, 600] 594).2.2.1 (by norm_num) (by norm_num)

/-! ## C4: magnitude formatting -/

/-- C4 counterexample: on the input `" abc "` the comma-stripped parse fails,
yet `_sci_if_needed` returns the whitespace-stripped `"abc"`, not the input
unchanged as the claim states. -/
theorem C4_sci_if_needed_counterexample :
    pyFloat (dropCommas " abc ") = none ∧ _sci_if_needed " abc " = "abc" ∧
      " abc " ≠ "abc" :=
  ⟨by decide, by decide, by decide⟩

/-- C4 (amended): `_sci_if_needed` strips surrounding whitespace first; when
the comma-stripped parse of the stripped string fails it returns the stripped
string, when it succeeds with magnitude at least 1000 it returns one-decimal
scientific notation, and below the threshold it returns the stripped string
(the original modulo stripping, never a reformatted number). -/
theorem C4_sci_if_needed_amended (s : String) :
    (pyFloat (dropCommas (pyStrip s)) = none → _sci_if_needed s = pyStrip s) ∧
    (∀ d, pyFloat (dropCommas (pyStrip s)) = some d →
      ((1000 : ℚ) ≤ |d.toRat| → _sci_if_needed s = fmtSci1 d) ∧
      (|d.toRat| < 1000 → _sci_if_needed s = pyStrip s)) := by
  by_cases h0 : pyStrip s = ""
  · have hn : pyFloat (dropCommas (pyStrip s)) = none := by rw [h0]; decide
    refine ⟨fun _ => ?_, fun d hd => ?_⟩
    · simp [_sci_if_needed, h0]
    · rw [hn] at hd; exact absurd hd (by simp)
  · refine ⟨fun hn => ?_, fun d hd => ⟨fun hge => ?_, fun hlt => ?_⟩⟩
    · simp [_sci_if_needed, h0, hn]
    · simp [_sci_if_needed, h0, hd, hge]
    · simp [_sci_if_needed, h0, hd, not_le.mpr hlt]

/-- C4 witness: the three examples of the claim, via the amended theorem. -/
theorem C4_sci_if_needed_witness :
    _sci_if_needed "1500" = "1.5E+03" ∧ _sci_if_needed "42" = "42" ∧
      _sci_if_needed "abc" = "abc" := by
  refine ⟨?_, ?_, ?_⟩
  · have hv : Dec.toRat ⟨false, 1500, 0⟩ = 1500 := by simp [Dec.toRat]
    have hge : (1000 : ℚ) ≤ |Dec.toRat ⟨false, 1500, 0⟩| := by
      rw [hv, abs_of_nonneg (by norm_num : (0 : ℚ) ≤ 1500)]; norm_num
    have h := ((C4_sci_if_needed_amended "1500").2 ⟨false, 1500, 0⟩ (by decide)).1 hge
    rw [h]; decide
  · have hv : Dec.toRat ⟨false, 42, 0⟩ = 42 := by simp [Dec.toRat]
    have hlt : |Dec.toRat ⟨false, 42, 0⟩| < 1000 := by
      rw [hv, abs_of_nonneg (by norm_num : (0 : ℚ) ≤ 42)]; norm_num
    have h := ((C4_sci_if_needed_amended "42").2 ⟨false, 42, 0⟩ (by decide)).2 hlt
    rw [h]; decide
  · have h := (C4_sci_if_needed_amended "abc").1 (by decide)
    rw [h]; decide

/-! ## C5: date normalization -/

/-- C5: `_normalize_date_str` is total (the embedding is a function, mirroring
the catch-all in the source): empty input gives empty output, parse failure
returns the input unchanged, and parse success returns the canonical
`YYYY-MM-DD` form. -/
theorem C5_normalize_date_str_spec (s : String) :
    (s = "" → _normalize_date_str s = "") ∧
    (pdToDatetime s = none → _normalize_date_str s = s) ∧
    (∀ d, pdToDatetime s = some d → _normalize_date_str s = isoDate d) := by
  refine ⟨fun h => ?_, fun h => ?_, fun d hd => ?_⟩
  · rw [h]; decide
  · by_cases h0 : s = ""
    · rw [h0]; decide
    · simp [_normalize_date_str, h0, h]
  · by_cases h0 : s = ""
    · rw [h0] at hd
      have hn : pdToDatetime "" = none := by decide
      rw [hn] at hd; exact absurd hd (by simp)
    · simp [_normalize_date_str, h0, hd]

/-- C5 witness: the claim's examples, via the main theorem. -/
theorem C5_normalize_date_str_witness :
    _normalize_date_str "03/14/2024" = "2024-03-14" ∧
      _normalize_date_str "not a date" = "not a date" ∧
      _normalize_date_str "" = "" := by
  refine ⟨?_, ?_, ?_⟩
  · have h := (C5_normalize_date_str_spec "03/14/2024").2.2 ⟨2024, 3, 14⟩ (by decide)
    rw [h]; decide
  · exact (C5_normalize_date_str_spec "not a date").2.1 (by decide)
  · exact (C5_normalize_date_str_spec "").1 rfl

/-! ## C1: two-pass pagination -/

theorem foldl_drawContent (pg : List ContentOp) (c : NumberedCanvas) :
    pg.foldl NumberedCanvas.drawContent c =
      { c with ops := c.ops ++ pg.map DrawOp.content } := by
  induction pg generalizing c with
  | nil => simp
  | cons a t ih => simp [NumberedCanvas.drawContent, ih]

theorem collect_aux (pages : List (List ContentOp)) (v : String) (fh : ℚ)
    (n : ℕ) (sv : List SavedPage) :
    pages.foldl drawPage ⟨v, fh, n, [], sv, []⟩ =
      ⟨v, fh, n + pages.length, [], sv ++ pagesToSaved n pages, []⟩ := by
  induction pages generalizing n sv with
  | nil => simp [pagesToSaved]
  | cons pg rest ih =>
      rw [List.foldl_cons]
      have hstep : drawPage ⟨v, fh, n, [], sv, []⟩ pg =
          ⟨v, fh, n + 1, [], sv ++ [⟨pg.map DrawOp.content, n⟩], []⟩ := by
        simp [drawPage, foldl_drawContent, NumberedCanvas.showPage]
      rw [hstep, ih]
      simp [pagesToSaved, NumberedCanvas.mk.injEq, List.append_assoc]
      omega

theorem collectPhase_eq (v : String) (fh : ℚ) (pages : List (List ContentOp)) :
    collectPhase v fh pages = ⟨v, fh, 1 + pages.length, [], pagesToSaved 1 pages, []⟩ := by
  have h := collect_aux pages v fh 1 []
  simpa [collectPhase, initCanvas] using h

theorem pagesToSaved_length (start : ℕ) (pages : List (List ContentOp)) :
    (pagesToSaved start pages).length = pages.length := by
  induction pages generalizing start with
  | nil => rfl
  | cons pg rest ih => simp [pagesToSaved, ih]

theorem pagesToSaved_mem_ops (pages : List (List ContentOp)) (start : ℕ) (st : SavedPage)
    (h : st ∈ pagesToSaved start pages) :
    ∃ pg : List ContentOp, st.ops = pg.map DrawOp.content := by
  induction pages generalizing start with
  | nil => simp [pagesToSaved] at h
  | cons pg rest ih =>
      simp only [pagesToSaved, List.mem_cons] at h
      rcases h with h | h
      · exact ⟨pg, by rw [h]⟩
      · exact ih (start + 1) h

theorem pagesToSaved_getElem? (pages : List (List ContentOp)) :
    ∀ (start k : ℕ) (pg : List ContentOp), pages[k]? = some pg →
      (pagesToSaved start pages)[k]? = some ⟨pg.map DrawOp.content, start + k⟩ := by
  induction pages with
  | nil => intro start k pg h; simp at h
  | cons a rest ih =>
      intro start k pg h
      cases k with
      | zero =>
          simp only [List.getElem?_cons_zero, Option.some.injEq] at h
          subst h
          simp [pagesToSaved]
      | succ k' =>
          simp only [List.getElem?_cons_succ] at h
          have h2 := ih (start + 1) k' pg h
          have heq : start + 1 + k' = start + (k' + 1) := by omega
          rw [heq] at h2
          simpa [pagesToSaved] using h2

theorem save_emitted_getElem? (c : NumberedCanvas) (k : ℕ) (st : SavedPage)
    (h : c.saved[k]? = some st) :
    (NumberedCanvas.save c).emitted[k]? =
      some (st.ops ++ _draw_footer_numbers c.version_text st.pageNumber c.saved.length) := by
  simp [NumberedCanvas.save, List.getElem?_map, h]

/-- C1: for a document whose flowing content spans `pages.length = N` pages,
the Collecting phase stores exactly N page states, emits nothing, and no
stored page carries footer text (every op is a content op); after the
Finalizing transition (`save`) exactly N pages are emitted, and page `k`
(0-based) is its captured content followed by the version right-string — the
same on every page — and the right-string `Page (k+1) of N`, with `N` the
capture count. -/
theorem C1_pagination_invariant (v : String) (fh : ℚ) (pages : List (List ContentOp)) :
    (collectPhase v fh pages).saved.length = pages.length ∧
    (collectPhase v fh pages).emitted = [] ∧
    (∀ st ∈ (collectPhase v fh pages).saved, ∀ op ∈ st.ops, isFooterTextOp op = false) ∧
    (runPages v fh pages).emitted.length = pages.length ∧
    (∀ (k : ℕ) (pg : List ContentOp), pages[k]? = some pg →
      (runPages v fh pages).emitted[k]? =
        some (pg.map DrawOp.content ++ [versionOp v, pageNumOp (k + 1) pages.length])) := by
  have hc := collectPhase_eq v fh pages
  refine ⟨?_, ?_, ?_, ?_, ?_⟩
  · rw [hc]; exact pagesToSaved_length 1 pages
  · rw [hc]
  · rw [hc]
    intro st hst op hop
    obtain ⟨pg, hops⟩ := pagesToSaved_mem_ops pages 1 st hst
    rw [hops, List.mem_map] at hop
    obtain ⟨c', _, rfl⟩ := hop
    rfl
  · rw [runPages, hc]
    simp [NumberedCanvas.save, pagesToSaved_length]
  · intro k pg hk
    rw [runPages, hc]
    have hsv := pagesToSaved_getElem? pages 1 k pg hk
    have hs := save_emitted_getElem? ⟨v, fh, 1 + pages.length, [], pagesToSaved 1 pages, []⟩
      k ⟨pg.map DrawOp.content, 1 + k⟩ hsv
    rw [hs]
    have h1 : 1 + k = k + 1 := Nat.add_comm 1 k
    simp only [pagesToSaved_length, h1]
    rfl

/-- C1 witness: a concrete two-page document — the second emitted page ends
with the version line and the text `Page 2 of 2`. -/
theorem C1_pagination_invariant_witness :
    (runPages "1.0" 0 [[], []]).emitted[1]? =
      some (([] : List ContentOp).map DrawOp.content ++
        [versionOp "1.0", pageNumOp 2 2]) :=
  (C1_pagination_invariant "1.0" 0 [[], []]).2.2.2.2 1 [] rfl

/-! ## C2: determinism of generation -/

/-- C2 counterexample: with identical FieldMap, test rows, flow engine and
asset state but two different ambient clock readings at save time, the two
byte streams differ — ReportLab's default (non-invariant) serializer stamps
the output with clock-derived CreationDate/ID bytes, and the program never
enables invariant mode. -/
theorem C2_clock_dependence_counterexample :
    generate_coa_pdf_vector (fun _ _ _ => [[]]) (fun _ => "") []
        ⟨none, none, none, none⟩ 0 ≠
      generate_coa_pdf_vector (fun _ _ _ => [[]]) (fun _ => "") []
        ⟨none, none, none, none⟩ 1 := by
  intro h
  simp only [generate_coa_pdf_vector, serializePDF] at h
  have h2 := List.append_cancel_left h
  exact absurd h2 (by decide)

/-- C2 (amended): generation is a pure function of (FieldMap, TestRows,
assets, ambient clock): for identical inputs and an identical clock reading
the outputs are byte-identical; the repository's own computation introduces
no other source of divergence. -/
theorem C2_generate_deterministic (flow : List Block → ℚ → ℚ → List (List ContentOp))
    (info info' : FieldMap) (tests tests' : List TestRow) (a a' : AssetState)
    (t t' : ℕ) (h1 : info = info') (h2 : tests = tests') (h3 : a = a') (h4 : t = t') :
    generate_coa_pdf_vector flow info tests a t =
      generate_coa_pdf_vector flow info' tests' a' t' := by
  rw [h1, h2, h3, h4]

/-- C2 witness: the amended determinism theorem applied at a concrete input
and clock. -/
theorem C2_generate_deterministic_witness :
    generate_coa_pdf_vector (fun _ _ _ => [[]]) (fun _ => "") []
        ⟨none, none, none, none⟩ 5 =
      generate_coa_pdf_vector (fun _ _ _ => [[]]) (fun _ => "") []
        ⟨none, none, none, none⟩ 5 :=
  C2_generate_deterministic (fun _ _ _ => [[]]) (fun _ => "") (fun _ => "") [] []
    ⟨none, none, none, none⟩ ⟨none, none, none, none⟩ 5 5 rfl rfl rfl rfl

/-! ## C6: date normalization vs field keys -/

/-- C6: the claim fails on the code (and the spec flags the intent): the
right-column condition `("quote" in label) is False and ("shipped" in label)`
matches the non-date labels Quantity Shipped and Shipped To Location, so
their values are date-normalized — with quantityShipped = "2000" (a bare
year within the Timestamp bounds, which pandas reads as 2000-01-01) the
rendered customer-information cell reads "2000-01-01", not "2000". -/
theorem C6_quantity_shipped_gets_normalized :
    ci_date2 "Quantity Shipped" = true ∧ ci_date2 "Shipped To Location" = true ∧
    c6Info "quantityShipped" = "2000" ∧
    (ci_cells c6Info)[2]? = some [("Order Date", true), ("", false),
      ("Quantity Shipped", true), ("2000-01-01", false)] ∧
    _normalize_date_str "2000" = "2000-01-01" :=
  ⟨by decide, by decide, by decide, by decide, by decide⟩

/-! ## C7: reserved bands vs page size -/

/-- C7: the claim (and the spec's geometry invariant) fails on the code:
nothing clamps the band heights, so a 10pt-wide, 2000pt-tall header image —
narrower than the content width, hence scale 1 — gives
top margin 2015pt + bottom margin 45pt = 2060pt on a 792pt page, and a
negative content-frame height. -/
theorem C7_reserved_bands_exceed_page :
    top_margin (scaled_h (some (10, 2000)) content_width) +
        bottom_margin (scaled_h none content_width) > PAGE_H ∧
      docHeight (top_margin (scaled_h (some (10, 2000)) content_width))
        (bottom_margin (scaled_h none content_width)) < 0 := by
  have hs : scaled_h (some ((10 : ℚ), (2000 : ℚ))) content_width = 2000 := by
    simp only [scaled_h, content_width, PAGE_W, MARGIN, min_def]
    norm_num
  have h0 : scaled_h none content_width = 0 := rfl
  rw [hs, h0]
  constructor
  · norm_num [top_margin, bottom_margin, PAGE_H, MARGIN]
  · norm_num [docHeight, top_margin, bottom_margin, PAGE_H, MARGIN]

/-! ## C8: asset failures degrade gracefully -/

/-- C8: for every asset state, a missing/unreadable header or footer yields a
zero-height reserved band, a missing disclaimer file yields the documented
default disclaimer, a missing version file yields "1.0", and generation
still returns a document. -/
theorem C8_asset_failures_degrade (a : AssetState)
    (flow : List Block → ℚ → ℚ → List (List ContentOp)) (info : FieldMap)
    (tests : List TestRow) (t : ℕ) :
    (a.header = none → scaled_h a.header content_width = 0) ∧
    (a.footer = none → scaled_h a.footer content_width = 0) ∧
    (a.disclaimer = none → load_disclaimer a = DEFAULT_DISCLAIMER) ∧
    (a.version = none → load_version a = "1.0") ∧
    (∃ doc : List ℕ, generate_coa_pdf_vector flow info tests a t = doc) := by
  refine ⟨fun h => ?_, fun h => ?_, fun h => ?_, fun h => ?_, ⟨_, rfl⟩⟩
  · rw [h]; rfl
  · rw [h]; rfl
  · simp only [load_disclaimer, h, _safe_read_text]
    decide
  · simp only [load_version, h, _safe_read_text]
    decide

/-- C8 witness: the all-assets-missing state, via the main theorem. -/
theorem C8_asset_failures_degrade_witness :
    scaled_h (AssetState.header ⟨none, none, none, none⟩) content_width = 0 ∧
      load_disclaimer ⟨none, none, none, none⟩ = DEFAULT_DISCLAIMER ∧
      load_version ⟨none, none, none, none⟩ = "1.0" ∧
      ∃ doc : List ℕ, generate_coa_pdf_vector (fun _ _ _ => [[]]) (fun _ => "") []
          ⟨none, none, none, none⟩ 0 = doc := by
  obtain ⟨h1, _, h3, h4, h5⟩ := C8_asset_failures_degrade ⟨none, none, none, none⟩
    (fun _ _ _ => [[]]) (fun _ => "") [] 0
  exact ⟨h1 rfl, h3 rfl, h4 rfl, h5⟩

/-! ## C9: spreadsheet import filtering -/

/-- C9: the imported FieldMap excludes any row whose first cell equals
"field" case-insensitively after stripping, and rows whose key or value cell
is missing/blank (NaN under the pandas reader) contribute nothing rather
than being stored as empty strings. -/
theorem C9_parse_uploaded_file_filters (df : List (List Cell)) :
    parse_uploaded_file df = df.foldl rowStep [] ∧
    (∀ (acc : List (String × String)) (s : String) (rest : List Cell),
      pyLower (pyStrip s) = "field" → rowStep acc (Cell.str s :: rest) = acc) ∧
    (∀ (acc : List (String × String)) (rest : List Cell),
      rowStep acc (Cell.na :: rest) = acc) ∧
    (∀ (acc : List (String × String)) (f : Cell) (rest : List Cell),
      rowStep acc (f :: Cell.na :: rest) = acc) := by
  refine ⟨rfl, ?_, ?_, ?_⟩
  · intro acc s rest h
    have hh : isHeaderField (Cell.str s) = true := by simp [isHeaderField, h]
    simp [rowStep, hh]
  · intro acc rest
    simp [rowStep, isHeaderField]
  · intro acc f rest
    by_cases h1 : isHeaderField f
    · simp [rowStep, h1]
    · by_cases h2 : f = Cell.na
      · simp [rowStep, h1, h2]
      · simp [rowStep, h1, h2]

/-- C9 witness: the claim's file — a "field" header row, one populated row,
one blank-value row — imports to exactly the populated row; the header-skip
clause of the main theorem applied concretely. -/
theorem C9_parse_uploaded_file_witness :
    parse_uploaded_file c9File = [("customerName", "Acme Corp")] ∧
      rowStep [("customerName", "Acme Corp")] (Cell.str "field" :: [Cell.str "value"]) =
        [("customerName", "Acme Corp")] := by
  constructor
  · decide
  · exact (C9_parse_uploaded_file_filters c9File).2.1 [("customerName", "Acme Corp")]
      "field" [Cell.str "value"] (by decide)

/-! ## C10: Timestamp cells canonicalized at import -/

/-- C10: a native Timestamp value cell is stored through
`strftime("%Y-%m-%d")` — the canonical `YYYY-MM-DD` string — and never as the
Timestamp's default rendering (which appends a time-of-day part). -/
theorem C10_timestamp_import_canonical (acc : List (String × String)) (field : Cell)
    (d : PDate) (rest : List Cell) (h1 : isHeaderField field = false)
    (h2 : field ≠ Cell.na) :
    rowStep acc (field :: Cell.ts d :: rest) =
      dictInsert acc (pyStrip (pyStrCell field)) (pyStrip (isoDate d)) ∧
    isoDate d ≠ tsDefaultStr d := by
  constructor
  · simp [rowStep, h1, h2, valueStr]
  · intro he
    have hl := congrArg String.length he
    rw [tsDefaultStr, String.length_append] at hl
    have h9 : (" 00:00:00" : String).length = 9 := rfl
    rw [h9] at hl
    omega

/-- C10 witness: a concrete date cell — stored as "2024-03-14", not as
"2024-03-14 00:00:00" — via the main theorem. -/
theorem C10_timestamp_import_witness :
    rowStep [] [Cell.str "orderDate", Cell.ts ⟨2024, 3, 14⟩] =
      dictInsert [] (pyStrip (pyStrCell (Cell.str "orderDate")))
        (pyStrip (isoDate ⟨2024, 3, 14⟩)) ∧
      pyStrip (isoDate ⟨2024, 3, 14⟩) = "2024-03-14" ∧
      isoDate ⟨2024, 3, 14⟩ ≠ tsDefaultStr ⟨2024, 3, 14⟩ := by
  obtain ⟨ha, hb⟩ := C10_timestamp_import_canonical [] (Cell.str "orderDate")
    ⟨2024, 3, 14⟩ [] (by decide) (by decide)
  exact ⟨ha, by decide, hb⟩
